import Mathlib

/-!
Shallow embedding of `src/backend.js` (Proxessa assessment backend).

The backend keeps an in-memory `Map` from session ids to session records
(`businessType`, `answers`, `lastActivity`).  We model the map as an
association list (`Store`), the OpenAI call as an `Option String` argument
(`some content` = the provider returned `content` already trimmed,
`none` = the call threw), and `Date.now()` as an explicit `now : Nat`
in milliseconds.  Each HTTP handler becomes a pure function from the
request body, the store, the clock and the generator outcome to the
HTTP response plus the updated store.
-/

/-- A session record, as stored in the `sessions` map (backend.js lines 62-66). -/
structure Session where
  businessType : Option String
  answers : List String
  lastActivity : Nat
deriving DecidableEq, Repr

/-- The in-memory session store: an association list keyed by session id,
modelling the JS `Map` (insertion order preserved, `set` replaces in place). -/
abbrev Store := List (String × Session)

/-- `sessions.get(id)`: exact-id lookup. -/
def storeGet : Store → String → Option Session
  | [], _ => none
  | (k, v) :: rest, id => if k = id then some v else storeGet rest id

/-- `sessions.set(id, v)`: replace in place if the key exists, else append
(JS `Map.set` semantics). -/
def storeSet : Store → String → Session → Store
  | [], id, v => [(id, v)]
  | (k, w) :: rest, id, v =>
      if k = id then (k, v) :: rest else (k, w) :: storeSet rest id v

/-- `sessions.delete(id)`: remove the entry with the given key (no-op when absent). -/
def storeDel (st : Store) (id : String) : Store :=
  st.filter (fun p => decide (p.1 ≠ id))

/-- The three error outcomes of the API handlers. -/
inductive ApiError where
  | invalidRequest
  | sessionNotFound
  | generationError
deriving DecidableEq, Repr

/-- HTTP status code sent with each error (`res.status(...)` in backend.js). -/
def ApiError.httpStatus : ApiError → Nat
  | .invalidRequest => 400
  | .sessionNotFound => 404
  | .generationError => 500

/-- Outcome of a handler: a success payload or an error response. -/
inductive ApiResult (α : Type) where
  | ok : α → ApiResult α
  | err : ApiError → ApiResult α
deriving DecidableEq, Repr

/-- The `data` payload of `/api/start-assessment` and `/api/next-question`. -/
structure GeneratedQuestion where
  question : String
  options : List String
  questionNumber : Nat
  isComplete : Bool
deriving DecidableEq, Repr

/-- The `data` payload of `/api/generate-report`. -/
structure Report where
  score : Nat
  topIssues : List String
  recommendations : List String
deriving DecidableEq, Repr

/-- Body of `/api/next-question`; `none` models an absent JSON field. -/
structure NextQuestionRequest where
  sessionId : Option String
  selectedAnswer : Option String
  questionNumber : Option Nat

/-- Body of `/api/generate-report`. -/
structure ReportRequest where
  sessionId : Option String

/-- JS falsiness of a string-valued body field (`!sessionId`):
absent, or present and empty. -/
def optStrFalsy : Option String → Bool
  | none => true
  | some s => decide (s = "")

/-- JS falsiness of a number-valued body field (`!questionNumber`):
absent, or present and zero. -/
def optNatFalsy : Option Nat → Bool
  | none => true
  | some n => decide (n = 0)

/-- JS `split('\n')` over the char list: the segments between newlines,
including empty ones (`""` splits to `[""]`, a trailing newline yields a
trailing empty segment). -/
def splitLines : List Char → List (List Char)
  | [] => [[]]
  | c :: cs =>
    match splitLines cs with
    | [] => [[]]
    | l :: ls => if c == '\n' then [] :: l :: ls else (c :: l) :: ls

/-- JS `line.trim()` over the char list: strip leading and trailing
whitespace. -/
def trimChars (cs : List Char) : List Char :=
  ((cs.dropWhile Char.isWhitespace).reverse.dropWhile Char.isWhitespace).reverse

/-- `line.trim() === ''`: the line is blank. -/
def isBlankLine (l : List Char) : Bool := (trimChars l).isEmpty

/-- Does the char lie in `A`..`D` (codepoints 65-68)?  The option regex
`[A-D]\. .*` starts with this character class. -/
def isUpperAD (c : Char) : Bool := 65 ≤ c.toNat && c.toNat ≤ 68

/-- Scan for the JS regex `[A-D]\. ` anywhere in the char list: a letter
`A`-`D` followed by a period and a space (the trailing `.*` of the source
regex always matches, so `test` reduces to this substring search). -/
def hasOptionPatternAux : List Char → Bool
  | a :: b :: c :: rest =>
      (isUpperAD a && b == '.' && c == ' ') || hasOptionPatternAux (b :: c :: rest)
  | _ => false

/-- `/[A-D]\. .*/.test(line)` from backend.js line 112. -/
def hasOptionPattern (line : String) : Bool :=
  hasOptionPatternAux line.toList

/-- `aiContent.split('\n').filter(line => line.trim() !== '')` (line 110). -/
def nonBlankLines (text : String) : List String :=
  ((splitLines text.toList).filter (fun l => !isBlankLine l)).map String.mk

/-- Question extraction (backend.js lines 110-112): first non-blank line is
the question (`lines[0] || ""`); `lines.slice(1, 5)` filtered by the option
regex gives the options. -/
def parseQuestion (text : String) : String × List String :=
  let lines := nonBlankLines text
  (lines.headD "", (((lines.drop 1).take 4).filter hasOptionPattern))

/-- Case-insensitive literal match: `matchCI pat cs` consumes `pat` (given
in lowercase) from the front of `cs`, comparing via `Char.toLower`, and
returns the remainder on success.  Models a JS regex literal under the `i`
flag. -/
def matchCI : List Char → List Char → Option (List Char)
  | [], cs => some cs
  | _ :: _, [] => none
  | p :: ps, c :: cs => if c.toLower == p then matchCI ps cs else none

/-- Decimal value of a digit run, as `parseInt(ds, 10)` computes it. -/
def digitsVal (ds : List Char) : Nat :=
  ds.foldl (fun n c => n * 10 + (c.toNat - 48)) 0

/-- Attempt of the regex `Chaos score: (\d+)` (flag `i`) at one position:
the literal, case-insensitively, followed by at least one digit; the capture
is the maximal digit run. -/
def scoreMatchAt (cs : List Char) : Option Nat :=
  match matchCI ("chaos score: ".toList) cs with
  | none => none
  | some rest =>
    match rest.takeWhile Char.isDigit with
    | [] => none
    | ds => some (digitsVal ds)

/-- `aiContent.match(/Chaos score: (\d+)/i)` (line 184): first position,
left to right, where the pattern matches. -/
def findScore : List Char → Option Nat
  | [] => none
  | c :: cs =>
    match scoreMatchAt (c :: cs) with
    | some n => some n
    | none => findScore cs

/-- Attempt of the heading part `Top \d+ operational issues:\n` (flag `i`)
at one position; returns the text after the heading on success. -/
def matchIssuesHeading (cs : List Char) : Option (List Char) :=
  match matchCI ("top ".toList) cs with
  | none => none
  | some r1 =>
    match r1.takeWhile Char.isDigit with
    | [] => none
    | ds => matchCI (" operational issues:\n".toList) (r1.drop ds.length)

/-- Does `\nRecommendation` (case-insensitive) match at this position?
This is the stop of the lazy capture `([\s\S]*?)(?:\nRecommendation|$)`. -/
def issuesStop (cs : List Char) : Bool :=
  (matchCI ("\nrecommendation".toList) cs).isSome

/-- Lazy capture `([\s\S]*?)(?:\nRecommendation|$)`: everything up to the
first `\nRecommendation`, or to the end of the text when there is none. -/
def captureUntilStop : List Char → List Char
  | [] => []
  | c :: cs => if issuesStop (c :: cs) then [] else c :: captureUntilStop cs

/-- `aiContent.match(/Top \d+ operational issues:\n([\s\S]*?)(?:\nRecommendation|$)/i)`
(line 189): first position where the heading matches; the capture group. -/
def findIssuesBlock : List Char → Option (List Char)
  | [] => none
  | c :: cs =>
    match matchIssuesHeading (c :: cs) with
    | some rest => some (captureUntilStop rest)
    | none => findIssuesBlock cs

/-- `aiContent.match(/Recommendations:\n([\s\S]*)/i)` (line 194): first
position where the literal matches; the capture is the rest of the text. -/
def findRecsBlock : List Char → Option (List Char)
  | [] => none
  | c :: cs =>
    match matchCI ("recommendations:\n".toList) (c :: cs) with
    | some rest => some rest
    | none => findRecsBlock cs

/-- `block.split('\n').filter(line => line.trim() !== '').map(line => line.trim())`
(lines 191 and 196). -/
def blockLines (cs : List Char) : List String :=
  (((splitLines cs).filter (fun l => !isBlankLine l)).map trimChars).map String.mk

/-- Report extraction (backend.js lines 180-197): score defaults to `0`,
issues and recommendations to `[]`, when their pattern is absent. -/
def parseReport (text : String) : Report :=
  { score := (findScore text.toList).getD 0
    topIssues :=
      match findIssuesBlock text.toList with
      | none => []
      | some b => blockLines b
    recommendations :=
      match findRecsBlock text.toList with
      | none => []
      | some b => blockLines b }

/-- The hardcoded first question of `/api/start-assessment` (lines 50-60). -/
def firstQuestion : GeneratedQuestion :=
  { question := "What best describes your business?"
    options := [
      "A. Retail and E-commerce",
      "B. Service-based Business (consulting, agency, etc.)",
      "C. Manufacturing and Production",
      "D. Technology and Software Development"]
    questionNumber := 1
    isComplete := false }

/-- `/api/start-assessment` (lines 47-70): `sid` models the fresh `uuidv4()`;
a new record with null businessType, empty answers and `lastActivity = now`
is inserted, and the fixed first question is returned with the id. -/
def startAssessment (st : Store) (sid : String) (now : Nat) :
    (String × GeneratedQuestion) × Store :=
  ((sid, firstQuestion),
   storeSet st sid { businessType := none, answers := [], lastActivity := now })

/-- `/api/next-question` (lines 72-129).  Validation, lookup, then the
unconditional mutation (touch, businessType on question 1, append), then the
generator call: `none` models the OpenAI call throwing (the mutation stays
committed), `some content` a trimmed successful completion, which is parsed
into the next question with `questionNumber + 1` and
`isComplete = questionNumber >= 5`. -/
def nextQuestion (st : Store) (req : NextQuestionRequest) (now : Nat)
    (gen : Option String) : ApiResult GeneratedQuestion × Store :=
  if optStrFalsy req.sessionId || optStrFalsy req.selectedAnswer ||
      optNatFalsy req.questionNumber then
    (.err .invalidRequest, st)
  else
    let sid := req.sessionId.getD ""
    let ans := req.selectedAnswer.getD ""
    let qn := req.questionNumber.getD 0
    match storeGet st sid with
    | none => (.err .sessionNotFound, st)
    | some s0 =>
      let s1 : Session :=
        { businessType := if qn = 1 then some ans else s0.businessType
          answers := s0.answers ++ [s!"Question {qn}: {ans}"]
          lastActivity := now }
      let st1 := storeSet st sid s1
      match gen with
      | none => (.err .generationError, st1)
      | some content =>
        let parsed := parseQuestion content
        (.ok { question := parsed.1
               options := parsed.2
               questionNumber := qn + 1
               isComplete := decide (qn ≥ 5) }, st1)

/-- `/api/generate-report` (lines 148-216).  Validation, lookup, touch; on
generator failure the error is returned with the touched session still in
the store; on success the parsed report is returned and the session is
deleted. -/
def generateReport (st : Store) (req : ReportRequest) (now : Nat)
    (gen : Option String) : ApiResult Report × Store :=
  if optStrFalsy req.sessionId then
    (.err .invalidRequest, st)
  else
    let sid := req.sessionId.getD ""
    match storeGet st sid with
    | none => (.err .sessionNotFound, st)
    | some s0 =>
      let st1 := storeSet st sid { s0 with lastActivity := now }
      match gen with
      | none => (.err .generationError, st1)
      | some content => (.ok (parseReport content), storeDel st1 sid)

/-- Idle threshold of the cleanup timer: `30 * 60 * 1000` ms (line 25). -/
def idleLimitMs : Nat := 30 * 60 * 1000

/-- The periodic cleanup (lines 22-30): delete every session whose idle time
`now - lastActivity` strictly exceeds the threshold. -/
def sweep (st : Store) (now : Nat) : Store :=
  st.filter (fun p => !decide (now - p.2.lastActivity > idleLimitMs))

/-! ## Store lemmas -/

theorem storeGet_storeSet_self (st : Store) (id : String) (v : Session) :
    storeGet (storeSet st id v) id = some v := by
  induction st with
  | nil => simp [storeSet, storeGet]
  | cons p rest ih =>
    obtain ⟨k, w⟩ := p
    by_cases h : k = id
    · subst h
      simp [storeSet, storeGet]
    · simp [storeSet, storeGet, h, ih]

theorem storeGet_storeDel_self (st : Store) (id : String) :
    storeGet (storeDel st id) id = none := by
  induction st with
  | nil => simp [storeDel, storeGet]
  | cons p rest ih =>
    obtain ⟨k, w⟩ := p
    by_cases h : k = id
    · simpa [storeDel, List.filter_cons, h] using ih
    · simpa [storeDel, List.filter_cons, h, storeGet] using ih

/-! ## Handler-evaluation lemmas -/

theorem nextQuestion_accepted_store (st : Store) (sid ans : String) (qn now : Nat)
    (gen : Option String) (s0 : Session)
    (hsid : sid ≠ "") (hans : ans ≠ "") (hqn : qn ≠ 0)
    (hget : storeGet st sid = some s0) :
    (nextQuestion st ⟨some sid, some ans, some qn⟩ now gen).2 =
      storeSet st sid
        { businessType := if qn = 1 then some ans else s0.businessType
          answers := s0.answers ++ [s!"Question {qn}: {ans}"]
          lastActivity := now } := by
  cases gen <;> simp [nextQuestion, optStrFalsy, optNatFalsy, hsid, hans, hqn, hget]

theorem nextQuestion_ok_result (st : Store) (sid ans : String) (qn now : Nat)
    (content : String) (s0 : Session)
    (hsid : sid ≠ "") (hans : ans ≠ "") (hqn : qn ≠ 0)
    (hget : storeGet st sid = some s0) :
    (nextQuestion st ⟨some sid, some ans, some qn⟩ now (some content)).1 =
      .ok { question := (parseQuestion content).1
            options := (parseQuestion content).2
            questionNumber := qn + 1
            isComplete := decide (qn ≥ 5) } := by
  simp [nextQuestion, optStrFalsy, optNatFalsy, hsid, hans, hqn, hget]

theorem generateReport_ok_eq (st : Store) (sid : String) (now : Nat) (content : String)
    (s0 : Session) (hsid : sid ≠ "") (hget : storeGet st sid = some s0) :
    generateReport st ⟨some sid⟩ now (some content) =
      (.ok (parseReport content),
       storeDel (storeSet st sid { s0 with lastActivity := now }) sid) := by
  simp [generateReport, optStrFalsy, hsid, hget]

theorem generateReport_genFail_eq (st : Store) (sid : String) (now : Nat)
    (s0 : Session) (hsid : sid ≠ "") (hget : storeGet st sid = some s0) :
    generateReport st ⟨some sid⟩ now none =
      (.err .generationError, storeSet st sid { s0 with lastActivity := now }) := by
  simp [generateReport, optStrFalsy, hsid, hget]

theorem generateReport_notFound_eq (st : Store) (sid : String) (now : Nat)
    (gen : Option String) (hsid : sid ≠ "") (hget : storeGet st sid = none) :
    generateReport st ⟨some sid⟩ now gen = (.err .sessionNotFound, st) := by
  simp [generateReport, optStrFalsy, hsid, hget]

/-! ## Score-scan lemmas -/

theorem scoreMatchAt_nil : scoreMatchAt [] = none := by
  decide

theorem findScore_eq_of_first (cs : List Char) (i n : Nat)
    (hi : scoreMatchAt (cs.drop i) = some n)
    (hmin : ∀ j, j < i → scoreMatchAt (cs.drop j) = none) :
    findScore cs = some n := by
  induction cs generalizing i with
  | nil =>
    rw [List.drop_nil] at hi
    rw [scoreMatchAt_nil] at hi
    exact absurd hi (by simp)
  | cons c cs ih =>
    cases i with
    | zero =>
      rw [List.drop_zero] at hi
      simp only [findScore, hi]
    | succ i =>
      have h0 := hmin 0 (Nat.succ_pos i)
      rw [List.drop_zero] at h0
      rw [List.drop_succ_cons] at hi
      simp only [findScore, h0]
      exact ih i hi (fun j hj => by
        have hh := hmin (j + 1) (Nat.succ_lt_succ hj)
        rwa [List.drop_succ_cons] at hh)

theorem findScore_eq_none_of_no_match (cs : List Char)
    (h : ∀ i, scoreMatchAt (cs.drop i) = none) :
    findScore cs = none := by
  induction cs with
  | nil => rfl
  | cons c cs ih =>
    have h0 := h 0
    rw [List.drop_zero] at h0
    simp only [findScore, h0]
    exact ih (fun i => by
      have hh := h (i + 1)
      rwa [List.drop_succ_cons] at hh)

/-! ## Claim theorems -/

/-- C2: on a session present in the store, a generate-report call whose
generator succeeds returns the parsed report, and deletes the session, so
an immediately following generate-report call with the same id fails with
SessionNotFound (HTTP 404). -/
theorem generateReport_one_shot (st : Store) (sid : String) (s0 : Session)
    (now now2 : Nat) (content : String) (gen2 : Option String)
    (hsid : sid ≠ "") (hget : storeGet st sid = some s0) :
    (generateReport st ⟨some sid⟩ now (some content)).1 = .ok (parseReport content) ∧
    storeGet (generateReport st ⟨some sid⟩ now (some content)).2 sid = none ∧
    (generateReport (generateReport st ⟨some sid⟩ now (some content)).2
        ⟨some sid⟩ now2 gen2).1 = .err .sessionNotFound ∧
    ApiError.sessionNotFound.httpStatus = 404 := by
  have h1 := generateReport_ok_eq st sid now content s0 hsid hget
  have hdel : storeGet (generateReport st ⟨some sid⟩ now (some content)).2 sid = none := by
    rw [h1]
    exact storeGet_storeDel_self _ _
  refine ⟨by rw [h1], hdel, ?_, rfl⟩
  rw [generateReport_notFound_eq _ sid now2 gen2 hsid hdel]

/-- Concrete instantiation of the C2 theorem. -/
theorem generateReport_one_shot_witness :
    (generateReport [("s", { businessType := none, answers := [], lastActivity := 0 })]
        ⟨some "s"⟩ 1 (some "r")).1 = .ok (parseReport "r") ∧
    storeGet (generateReport [("s", { businessType := none, answers := [], lastActivity := 0 })]
        ⟨some "s"⟩ 1 (some "r")).2 "s" = none ∧
    (generateReport (generateReport
        [("s", { businessType := none, answers := [], lastActivity := 0 })]
        ⟨some "s"⟩ 1 (some "r")).2 ⟨some "s"⟩ 2 none).1 = .err .sessionNotFound ∧
    ApiError.sessionNotFound.httpStatus = 404 :=
  generateReport_one_shot [("s", { businessType := none, answers := [], lastActivity := 0 })]
    "s" { businessType := none, answers := [], lastActivity := 0 } 1 2 "r" none
    (by decide) (by decide)

/-- C3: an accepted next-question call sets businessType to the selected
answer exactly when the supplied questionNumber is 1, and appends exactly
the one entry "Question n: answer" to the session's answers, keeping all
previously recorded answers unchanged and in their original order. -/
theorem nextQuestion_mutation (st : Store) (sid ans : String) (qn now : Nat)
    (gen : Option String) (s0 : Session)
    (hsid : sid ≠ "") (hans : ans ≠ "") (hqn : qn ≠ 0)
    (hget : storeGet st sid = some s0) :
    storeGet (nextQuestion st ⟨some sid, some ans, some qn⟩ now gen).2 sid =
      some { businessType := if qn = 1 then some ans else s0.businessType
             answers := s0.answers ++ [s!"Question {qn}: {ans}"]
             lastActivity := now } := by
  rw [nextQuestion_accepted_store st sid ans qn now gen s0 hsid hans hqn hget]
  exact storeGet_storeSet_self _ _ _

/-- Concrete instantiation of the C3 theorem. -/
theorem nextQuestion_mutation_witness :
    storeGet (nextQuestion
        [("s", { businessType := none, answers := [], lastActivity := 5 })]
        ⟨some "s", some "A. x", some 1⟩ 9 (some "Q?\nA. a")).2 "s" =
      some { businessType := some "A. x", answers := ["Question 1: A. x"],
             lastActivity := 9 } :=
  nextQuestion_mutation [("s", { businessType := none, answers := [], lastActivity := 5 })]
    "s" "A. x" 1 9 (some "Q?\nA. a") { businessType := none, answers := [], lastActivity := 5 }
    (by decide) (by decide) (by decide) (by decide)

/-- C4: a successful next-question call with input questionNumber n returns
a GeneratedQuestion whose questionNumber is n + 1 and whose isComplete flag
is true exactly when n >= 5. -/
theorem nextQuestion_advances (st : Store) (sid ans : String) (qn now : Nat)
    (content : String) (s0 : Session)
    (hsid : sid ≠ "") (hans : ans ≠ "") (hqn : qn ≠ 0)
    (hget : storeGet st sid = some s0) :
    ∃ g : GeneratedQuestion,
      (nextQuestion st ⟨some sid, some ans, some qn⟩ now (some content)).1 = .ok g ∧
      g.questionNumber = qn + 1 ∧ (g.isComplete = true ↔ qn ≥ 5) := by
  refine ⟨_, nextQuestion_ok_result st sid ans qn now content s0 hsid hans hqn hget, rfl, ?_⟩
  simp

/-- Concrete instantiation of the C4 theorem at the termination bound. -/
theorem nextQuestion_advances_witness :
    ∃ g : GeneratedQuestion,
      (nextQuestion
        [("s", ⟨some "A. x", ["Question 1: A. x"], 5⟩)]
        ⟨some "s", some "B. y", some 5⟩ 9 (some "done")).1 = .ok g ∧
      g.questionNumber = 5 + 1 ∧ (g.isComplete = true ↔ 5 ≥ 5) :=
  nextQuestion_advances
    [("s", ⟨some "A. x", ["Question 1: A. x"], 5⟩)]
    "s" "B. y" 5 9 "done"
    ⟨some "A. x", ["Question 1: A. x"], 5⟩
    (by decide) (by decide) (by decide) (by decide)

/-- C7 counterexample: with a failing generator, generate-report does
modify a field of the stored session record: `lastActivity` is overwritten
with the request time (backend.js line 161) before the generator is
invoked, so the session is not left "completely untouched". -/
theorem generateReport_genFail_touches :
    (generateReport [("s", { businessType := none, answers := [], lastActivity := 0 })]
        ⟨some "s"⟩ 5000 none).1 = .err .generationError ∧
    storeGet (generateReport [("s", { businessType := none, answers := [], lastActivity := 0 })]
        ⟨some "s"⟩ 5000 none).2 "s" =
      some { businessType := none, answers := [], lastActivity := 5000 } ∧
    ({ businessType := none, answers := [], lastActivity := 5000 } : Session) ≠
      { businessType := none, answers := [], lastActivity := 0 } := by
  exact ⟨by decide, by decide, by decide⟩

/-- C7 (amended): with a failing generator, generate-report returns
GenerationError (HTTP 500), the session is not deleted and its
businessType and answers are unchanged — so a later generate-report call
can still find it — but its lastActivity field is updated to the request
time. -/
theorem generateReport_genFail_keeps_session (st : Store) (sid : String)
    (now : Nat) (s0 : Session)
    (hsid : sid ≠ "") (hget : storeGet st sid = some s0) :
    (generateReport st ⟨some sid⟩ now none).1 = .err .generationError ∧
    ApiError.generationError.httpStatus = 500 ∧
    storeGet (generateReport st ⟨some sid⟩ now none).2 sid =
      some { businessType := s0.businessType, answers := s0.answers,
             lastActivity := now } := by
  have h := generateReport_genFail_eq st sid now s0 hsid hget
  refine ⟨by rw [h], rfl, ?_⟩
  rw [h]
  exact storeGet_storeSet_self _ _ _

/-- Concrete instantiation of the amended C7 theorem. -/
theorem generateReport_genFail_keeps_session_witness :
    (generateReport [("s", ⟨some "A. x", ["Question 1: A. x"], 3⟩)]
        ⟨some "s"⟩ 9 none).1 = .err .generationError ∧
    ApiError.generationError.httpStatus = 500 ∧
    storeGet (generateReport [("s", ⟨some "A. x", ["Question 1: A. x"], 3⟩)]
        ⟨some "s"⟩ 9 none).2 "s" =
      some { businessType := (⟨some "A. x", ["Question 1: A. x"], 3⟩ : Session).businessType,
             answers := (⟨some "A. x", ["Question 1: A. x"], 3⟩ : Session).answers,
             lastActivity := 9 } :=
  generateReport_genFail_keeps_session
    [("s", ⟨some "A. x", ["Question 1: A. x"], 3⟩)] "s" 9
    ⟨some "A. x", ["Question 1: A. x"], 3⟩ (by decide) (by decide)

/-- C8: next-question fails with InvalidRequest (HTTP 400) when sessionId
or selectedAnswer is missing or empty or questionNumber is missing or
zero, and otherwise with SessionNotFound (HTTP 404) when the id is not in
the store; in both cases the store is returned unchanged. -/
theorem nextQuestion_validation (st : Store) (req : NextQuestionRequest)
    (now : Nat) (gen : Option String) :
    ((req.sessionId = none ∨ req.sessionId = some "" ∨
      req.selectedAnswer = none ∨ req.selectedAnswer = some "" ∨
      req.questionNumber = none ∨ req.questionNumber = some 0) →
      nextQuestion st req now gen = (.err .invalidRequest, st)) ∧
    (∀ sid ans qn, req = ⟨some sid, some ans, some qn⟩ →
      sid ≠ "" → ans ≠ "" → qn ≠ 0 → storeGet st sid = none →
      nextQuestion st req now gen = (.err .sessionNotFound, st)) ∧
    ApiError.invalidRequest.httpStatus = 400 ∧
    ApiError.sessionNotFound.httpStatus = 404 := by
  refine ⟨?_, ?_, rfl, rfl⟩
  · rintro (h | h | h | h | h | h) <;>
      simp [nextQuestion, optStrFalsy, optNatFalsy, h]
  · intro sid ans qn heq hsid hans hqn hget
    subst heq
    simp [nextQuestion, optStrFalsy, optNatFalsy, hsid, hans, hqn, hget]

/-- Concrete instantiation of the C8 theorem: one request with a missing
field, one with an unknown session id. -/
theorem nextQuestion_validation_witness :
    nextQuestion [] ⟨none, some "A", some 1⟩ 0 none = (.err .invalidRequest, []) ∧
    nextQuestion [] ⟨some "ghost", some "A", some 1⟩ 0 none =
      (.err .sessionNotFound, []) :=
  ⟨(nextQuestion_validation [] ⟨none, some "A", some 1⟩ 0 none).1 (Or.inl rfl),
   (nextQuestion_validation [] ⟨some "ghost", some "A", some 1⟩ 0 none).2.1
     "ghost" "A" 1 rfl (by decide) (by decide) (by decide) rfl⟩

/-- C10: generate-report never inspects the session's contents before
calling the generator: any stored session — in particular a freshly
created one with null businessType and an empty answers list — is
accepted, and the call succeeds whenever the generator does. -/
theorem generateReport_accepts_any_state (st : Store) (sid : String)
    (now : Nat) (content : String) (s0 : Session)
    (hsid : sid ≠ "") (hget : storeGet st sid = some s0) :
    (generateReport st ⟨some sid⟩ now (some content)).1 = .ok (parseReport content) := by
  rw [generateReport_ok_eq st sid now content s0 hsid hget]

/-- Concrete instantiation of the C10 theorem on a freshly created session
(null businessType, no answers). -/
theorem generateReport_accepts_any_state_witness :
    (generateReport [("f", { businessType := none, answers := [], lastActivity := 0 })]
        ⟨some "f"⟩ 1 (some "no report structure")).1 =
      .ok (parseReport "no report structure") :=
  generateReport_accepts_any_state
    [("f", { businessType := none, answers := [], lastActivity := 0 })]
    "f" 1 "no report structure"
    { businessType := none, answers := [], lastActivity := 0 }
    (by decide) (by decide)

/-- C5: for every generated text, the question-extraction rule takes the
first non-blank line as the question and keeps, among the next four
non-blank lines, exactly those the option regex matches, in their original
order — at most four options, possibly fewer, never an error; a block with
exactly three well-formed options yields exactly those three, in order. -/
theorem parseQuestion_extraction :
    (∀ text,
      (parseQuestion text).1 = (nonBlankLines text).headD "" ∧
      (parseQuestion text).2 =
        (((nonBlankLines text).drop 1).take 4).filter hasOptionPattern ∧
      List.Sublist (parseQuestion text).2 (((nonBlankLines text).drop 1).take 4) ∧
      (parseQuestion text).2.length ≤ 4) ∧
    parseQuestion "Q?\nA. one\nB. two\nC. three\n4) four" =
      ("Q?", ["A. one", "B. two", "C. three"]) := by
  refine ⟨fun text => ⟨rfl, rfl, List.filter_sublist _, ?_⟩, by decide⟩
  show ((((nonBlankLines text).drop 1).take 4).filter hasOptionPattern).length ≤ 4
  calc ((((nonBlankLines text).drop 1).take 4).filter hasOptionPattern).length
      ≤ (((nonBlankLines text).drop 1).take 4).length := List.length_filter_le _ _
    _ ≤ 4 := by rw [List.length_take]; exact min_le_left _ _

/-- C9: the sweep removes exactly the records whose idle time strictly
exceeds 1800 seconds (1800000 ms) and keeps every other record with its
fields and relative order unchanged; a session idle for 2000 s is gone
after the sweep while one idle for 1799 s survives. -/
theorem sweep_deletes_exactly_expired (st : Store) (now : Nat) :
    sweep st now =
      st.filter (fun e => decide (now - e.2.lastActivity ≤ 1800 * 1000)) ∧
    List.Sublist (sweep st now) st ∧
    (∀ e, e ∈ sweep st now ↔ e ∈ st ∧ now - e.2.lastActivity ≤ 1800 * 1000) ∧
    storeGet (sweep [("idle", ⟨none, [], 0⟩), ("fresh", ⟨none, [], 201000⟩)]
      2000000) "idle" = none ∧
    storeGet (sweep [("idle", ⟨none, [], 0⟩), ("fresh", ⟨none, [], 201000⟩)]
      2000000) "fresh" = some ⟨none, [], 201000⟩ := by
  have heq : sweep st now =
      st.filter (fun e => decide (now - e.2.lastActivity ≤ 1800 * 1000)) := by
    unfold sweep
    congr 1
    funext e
    by_cases h : now - e.2.lastActivity ≤ 1800 * 1000
    · have h2 : ¬ now - e.2.lastActivity > idleLimitMs := by
        simp only [idleLimitMs, gt_iff_lt, Nat.not_lt]
        omega
      simp [h, h2]
    · have h2 : now - e.2.lastActivity > idleLimitMs := by
        simp only [idleLimitMs, gt_iff_lt]
        omega
      simp [h, h2]
  refine ⟨heq, ?_, ?_, by decide, by decide⟩
  · rw [heq]
    exact List.filter_sublist _
  · intro e
    rw [heq]
    simp [List.mem_filter]

/-- C6 counterexample: the report parser does not clamp the extracted
score to [0, 100]: the text "Chaos score: 500" yields the score 500, so
the returned score is not always an int in [0, 100]. -/
theorem parseReport_score_unbounded :
    (parseReport "Chaos score: 500").score = 500 ∧
    ¬ (parseReport "Chaos score: 500").score ≤ 100 := by
  exact ⟨by decide, by decide⟩

/-- C6 (amended): the returned score is the integer captured by the first
case-insensitive match of "Chaos score: <digits>" and 0 when no position
matches; it is a non-negative integer but the parser does not bound it by
100.  In particular "Chaos score: 73" yields 73 and a text with no such
line yields 0. -/
theorem parseReport_score_first_match :
    (∀ text, (∀ i, scoreMatchAt (text.toList.drop i) = none) →
      (parseReport text).score = 0) ∧
    (∀ text i n, scoreMatchAt (text.toList.drop i) = some n →
      (∀ j, j < i → scoreMatchAt (text.toList.drop j) = none) →
      (parseReport text).score = n) ∧
    (parseReport "Chaos score: 73").score = 73 ∧
    (parseReport "There is no score line here.").score = 0 ∧
    (parseReport "intro\nchAos sCore: 042 and Chaos score: 99").score = 42 := by
  refine ⟨?_, ?_, by decide, by decide, by decide⟩
  · intro text h
    show (findScore text.toList).getD 0 = 0
    rw [findScore_eq_none_of_no_match _ h]
    rfl
  · intro text i n hi hmin
    show (findScore text.toList).getD 0 = n
    rw [findScore_eq_of_first _ i n hi hmin]
    rfl

/-- Concrete instantiation of the amended C6 theorem: the pattern matches
"Chaos score: 73" at position 0 and the parser returns 73. -/
theorem parseReport_score_first_match_witness :
    scoreMatchAt ("Chaos score: 73".toList.drop 0) = some 73 ∧
    (parseReport "Chaos score: 73").score = 73 :=
  ⟨by decide,
   parseReport_score_first_match.2.1 "Chaos score: 73" 0 73 (by decide)
     (fun j hj => absurd hj (Nat.not_lt_zero j))⟩

/-- C1: a valid full run — start-assessment, then five accepted
next-question calls with questionNumber 1 through 5 and a succeeding
generator, then one generate-report call with a succeeding generator —
returns the parsed report from the report call, and afterwards the session
id is absent from the store. -/
theorem full_run_report_closes_session (st : Store) (sid : String)
    (a1 a2 a3 a4 a5 g1 g2 g3 g4 g5 r : String)
    (t0 t1 t2 t3 t4 t5 t6 : Nat)
    (s1 s2 s3 s4 s5 s6 : Store)
    (hsid : sid ≠ "")
    (ha1 : a1 ≠ "") (ha2 : a2 ≠ "") (ha3 : a3 ≠ "")
    (ha4 : a4 ≠ "") (ha5 : a5 ≠ "")
    (e1 : s1 = (startAssessment st sid t0).2)
    (e2 : s2 = (nextQuestion s1 ⟨some sid, some a1, some 1⟩ t1 (some g1)).2)
    (e3 : s3 = (nextQuestion s2 ⟨some sid, some a2, some 2⟩ t2 (some g2)).2)
    (e4 : s4 = (nextQuestion s3 ⟨some sid, some a3, some 3⟩ t3 (some g3)).2)
    (e5 : s5 = (nextQuestion s4 ⟨some sid, some a4, some 4⟩ t4 (some g4)).2)
    (e6 : s6 = (nextQuestion s5 ⟨some sid, some a5, some 5⟩ t5 (some g5)).2) :
    (generateReport s6 ⟨some sid⟩ t6 (some r)).1 = .ok (parseReport r) ∧
    storeGet (generateReport s6 ⟨some sid⟩ t6 (some r)).2 sid = none := by
  have step : ∀ (stx : Store) (ans g : String) (qn t : Nat) (sx : Session),
      ans ≠ "" → qn ≠ 0 → storeGet stx sid = some sx →
      ∃ sy : Session,
        storeGet (nextQuestion stx ⟨some sid, some ans, some qn⟩ t (some g)).2 sid =
          some sy := by
    intro stx ans g qn t sx hans hqn hget
    refine ⟨{ businessType := if qn = 1 then some ans else sx.businessType,
              answers := sx.answers ++ [s!"Question {qn}: {ans}"],
              lastActivity := t }, ?_⟩
    rw [nextQuestion_accepted_store stx sid ans qn t (some g) sx hsid hans hqn hget]
    exact storeGet_storeSet_self _ _ _
  have hg1 : storeGet s1 sid = some ⟨none, [], t0⟩ := by
    rw [e1]
    exact storeGet_storeSet_self _ _ _
  obtain ⟨x1, hg2⟩ := step s1 a1 g1 1 t1 _ ha1 (by decide) hg1
  rw [← e2] at hg2
  obtain ⟨x2, hg3⟩ := step s2 a2 g2 2 t2 _ ha2 (by decide) hg2
  rw [← e3] at hg3
  obtain ⟨x3, hg4⟩ := step s3 a3 g3 3 t3 _ ha3 (by decide) hg3
  rw [← e4] at hg4
  obtain ⟨x4, hg5⟩ := step s4 a4 g4 4 t4 _ ha4 (by decide) hg4
  rw [← e5] at hg5
  obtain ⟨x5, hg6⟩ := step s5 a5 g5 5 t5 _ ha5 (by decide) hg5
  rw [← e6] at hg6
  have hrep := generateReport_ok_eq s6 sid t6 r x5 hsid hg6
  refine ⟨by rw [hrep], ?_⟩
  rw [hrep]
  exact storeGet_storeDel_self _ _

/-- Concrete instantiation of the C1 theorem: a full run on an initially
empty store. -/
theorem full_run_report_closes_session_witness :
    (generateReport
      (nextQuestion (nextQuestion (nextQuestion (nextQuestion (nextQuestion
        (startAssessment [] "s" 0).2
        ⟨some "s", some "A", some 1⟩ 1 (some "G")).2
        ⟨some "s", some "A", some 2⟩ 2 (some "G")).2
        ⟨some "s", some "A", some 3⟩ 3 (some "G")).2
        ⟨some "s", some "A", some 4⟩ 4 (some "G")).2
        ⟨some "s", some "A", some 5⟩ 5 (some "G")).2
      ⟨some "s"⟩ 6 (some "R")).1 = .ok (parseReport "R") ∧
    storeGet (generateReport
      (nextQuestion (nextQuestion (nextQuestion (nextQuestion (nextQuestion
        (startAssessment [] "s" 0).2
        ⟨some "s", some "A", some 1⟩ 1 (some "G")).2
        ⟨some "s", some "A", some 2⟩ 2 (some "G")).2
        ⟨some "s", some "A", some 3⟩ 3 (some "G")).2
        ⟨some "s", some "A", some 4⟩ 4 (some "G")).2
        ⟨some "s", some "A", some 5⟩ 5 (some "G")).2
      ⟨some "s"⟩ 6 (some "R")).2 "s" = none :=
  full_run_report_closes_session [] "s" "A" "A" "A" "A" "A" "G" "G" "G" "G" "G" "R"
    0 1 2 3 4 5 6
    (startAssessment [] "s" 0).2
    (nextQuestion (startAssessment [] "s" 0).2
      ⟨some "s", some "A", some 1⟩ 1 (some "G")).2
    (nextQuestion (nextQuestion (startAssessment [] "s" 0).2
      ⟨some "s", some "A", some 1⟩ 1 (some "G")).2
      ⟨some "s", some "A", some 2⟩ 2 (some "G")).2
    (nextQuestion (nextQuestion (nextQuestion (startAssessment [] "s" 0).2
      ⟨some "s", some "A", some 1⟩ 1 (some "G")).2
      ⟨some "s", some "A", some 2⟩ 2 (some "G")).2
      ⟨some "s", some "A", some 3⟩ 3 (some "G")).2
    (nextQuestion (nextQuestion (nextQuestion (nextQuestion
      (startAssessment [] "s" 0).2
      ⟨some "s", some "A", some 1⟩ 1 (some "G")).2
      ⟨some "s", some "A", some 2⟩ 2 (some "G")).2
      ⟨some "s", some "A", some 3⟩ 3 (some "G")).2
      ⟨some "s", some "A", some 4⟩ 4 (some "G")).2
    (nextQuestion (nextQuestion (nextQuestion (nextQuestion (nextQuestion
      (startAssessment [] "s" 0).2
      ⟨some "s", some "A", some 1⟩ 1 (some "G")).2
      ⟨some "s", some "A", some 2⟩ 2 (some "G")).2
      ⟨some "s", some "A", some 3⟩ 3 (some "G")).2
      ⟨some "s", some "A", some 4⟩ 4 (some "G")).2
      ⟨some "s", some "A", some 5⟩ 5 (some "G")).2
    (by decide) (by decide) (by decide) (by decide) (by decide) (by decide)
    rfl rfl rfl rfl rfl rfl
